import Mathlib

/-!
Verification development for the ErrorBoundary component of the Statsig
js-client SDK.

The embedding below is a shallow translation of the ErrorBoundary class:
its capture, swallow and logError operations, the deduplication set
called seen, the diagnostics start and end markers, and the exception
report assembled on the error path.  JavaScript promises are modelled by
distinguishing synchronous and asynchronous completions of a task, and
the mutable instance fields become an explicit state record threaded
through each operation.  The two contract-violation error classes
(StatsigUninitializedError, StatsigInvalidArgumentError) and the
Diagnostics marker collaborator are not part of the visible source; the
definitions that stand for them are marked as modelled from the spec.
-/

namespace ErrorBoundary

/-- ExceptionEndpoint is the fixed URL exception reports are posted to. -/
def ExceptionEndpoint : String := "https://statsigapi.net/v1/sdk_exception"

/-- MAX_DIAGNOSTICS_MARKERS is the marker capacity of a sampled session. -/
def MAX_DIAGNOSTICS_MARKERS : Nat := 30

/-- SAMPLING_RATE is the range of the diagnostics sampling draw. -/
def SAMPLING_RATE : Nat := 10000

/-- ErrClass distinguishes the class of a thrown JavaScript Error value.
Modelled from the spec: the classes StatsigUninitializedError and
StatsigInvalidArgumentError live in a module outside the visible source;
the spec describes them as the two deliberate contract-violation error
kinds, both subclasses of Error.  Every other Error instance is plain. -/
inductive ErrClass where
  | uninitialized
  | invalidArgument
  | plain
deriving DecidableEq, Repr

/-- JSErr models a JavaScript value appearing in a throw or a promise
rejection.  An Error instance carries its class, its name field and its
stack text.  A nonError value carries the result of JSON.stringify on
it, with none standing for a value stringify fails on.  nullish stands
for null or undefined. -/
inductive JSErr where
  | errObj (cls : ErrClass) (name : String) (stack : String)
  | nonError (desc : Option String)
  | nullish
deriving DecidableEq, Repr

/-- isContractViolation reflects the instanceof test in onCaught for the
two deliberate contract-violation error classes. -/
def JSErr.isContractViolation : JSErr → Bool
  | .errObj .uninitialized _ _ => true
  | .errObj .invalidArgument _ _ => true
  | _ => false

/-- isErrorInstance reflects the test unwrapped instanceof Error. -/
def JSErr.isErrorInstance : JSErr → Bool
  | .errObj _ _ _ => true
  | _ => false

/-- unwrapErr models the expression error 'nullish-or' a fresh
Error with message [Statsig] Error was empty.  The fresh placeholder is
a plain Error whose name field is Error; its stack text is modelled by
its message. -/
def unwrapErr : JSErr → JSErr
  | .nullish => .errObj .plain "Error" "[Statsig] Error was empty"
  | e => e

/-- errorName models the expression choosing the deduplication identity:
the name field for Error instances and the string No Name otherwise. -/
def errorName : JSErr → String
  | .errObj _ n _ => n
  | _ => "No Name"

/-- getDescription models JSON.stringify with the catch fallback string. -/
def getDescription (desc : Option String) : String :=
  match desc with
  | some s => s
  | none => "[Statsig] Failed to get string for error."

/-- errorInfo models the info field of a report: the stack text for
Error instances and the description otherwise. -/
def errorInfo : JSErr → String
  | .errObj _ _ stack => stack
  | .nonError d => getDescription d
  | .nullish => getDescription none

/-- MetaVal models the values of the statsigMetadata record, which the
source types as string or number. -/
inductive MetaVal where
  | str (s : String)
  | num (n : Int)
deriving DecidableEq, Repr

/-- metaToString models the JavaScript String conversion applied to a
metadata lookup; a missing key converts to the string undefined. -/
def metaToString : Option MetaVal → String
  | none => "undefined"
  | some (.str s) => s
  | some (.num n) => toString n

/-- recLookup models property lookup on a record literal. -/
def recLookup (m : List (String × MetaVal)) (k : String) : Option MetaVal :=
  (m.find? (fun p => p.1 == k)).map (fun p => p.2)

/-- MarkerEvent is one recorded diagnostics event.  Modelled from the
spec: only the start and end contract of the Diagnostics collaborator
matters; a start event carries the marker id and tag, an end event adds
the success flag and the optional config name. -/
inductive MarkerEvent where
  | startMark (markerID : String) (tag : String)
  | endMark (markerID : String) (tag : String) (success : Bool) (configName : Option String)
deriving DecidableEq, Repr

/-- DiagState is the state of the Diagnostics collaborator for the
error_boundary context.  Modelled from the spec: a capacity fixed by
setMaxMarkers and an append-only list of recorded marker events; a start
is added, and reported as added, exactly when the current marker count
is below the capacity. -/
structure DiagState where
  maxMarkers : Nat
  markers : List MarkerEvent
deriving DecidableEq, Repr

/-- EBState is the mutable instance state of one ErrorBoundary: the sdk
key given to the constructor, the optional statsigMetadata record, the
seen set of already reported failure names (as a list used as a set),
and the diagnostics state. -/
structure EBState where
  sdkKey : String
  statsigMetadata : Option (List (String × MetaVal))
  seen : List String
  diag : DiagState
deriving DecidableEq, Repr

/-- mkErrorBoundary models the constructor.  The argument sampling
stands for the draw Math.floor of Math.random times SAMPLING_RATE, a
uniform natural number below SAMPLING_RATE supplied by the environment;
the constructor then calls setupDiagnostics with
MAX_DIAGNOSTICS_MARKERS when the draw is zero and with zero otherwise.
Modelled from the spec: Diagnostics.setMaxMarkers records the capacity. -/
def mkErrorBoundary (sdkKey : String) (sampling : Nat) : EBState :=
  { sdkKey := sdkKey
    statsigMetadata := none
    seen := []
    diag :=
      { maxMarkers := if sampling = 0 then MAX_DIAGNOSTICS_MARKERS else 0
        markers := [] } }

/-- setStatsigMetadata models the setter of the same name. -/
def setStatsigMetadata (st : EBState) (m : List (String × MetaVal)) : EBState :=
  { st with statsigMetadata := some m }

/-- beginMarker models the private beginMarker method: it reads the
current marker count, forms the id from the tag and that count, asks the
diagnostics collaborator to record a start event, and returns the id
exactly when the event was added. -/
def beginMarker (st : EBState) (tag : String) : Option String × EBState :=
  let count := st.diag.markers.length
  let markerID := tag ++ "_" ++ toString count
  if count < st.diag.maxMarkers then
    (some markerID,
      { st with diag :=
          { st.diag with markers := st.diag.markers ++ [.startMark markerID tag] } })
  else
    (none, st)

/-- endMarker models the private endMarker method: with a null marker id
it is a no-op, otherwise it records an end event carrying the success
flag and the optional config name. -/
def endMarker (st : EBState) (tag : String) (wasSuccessful : Bool)
    (markerID : Option String) (configName : Option String) : EBState :=
  match markerID with
  | none => st
  | some id =>
    { st with diag :=
        { st.diag with markers := st.diag.markers ++ [.endMark id tag wasSuccessful configName] } }

/-- ExtraOutcome is the behaviour of a supplied getExtraData extractor
when it is invoked and awaited: it either throws or rejects with an
error, or yields a record of extra entries; the serializable flag tells
whether JSON.stringify succeeds on a body containing that record. -/
inductive ExtraOutcome where
  | throws (e : JSErr)
  | ok (entries : List (String × String)) (serializable : Bool)
deriving DecidableEq, Repr

/-- RequestHeaders are the headers of the exception report request. -/
structure RequestHeaders where
  apiKey : String
  sdkType : String
  sdkVersion : String
  contentType : String
deriving DecidableEq, Repr

/-- Report is one POST to the exception endpoint: the URL, the body
fields tag, exception, info, statsigMetadata and extra, and the request
headers. -/
structure Report where
  url : String
  tag : String
  exception : String
  info : String
  statsigMetadata : List (String × MetaVal)
  extra : List (String × String)
  headers : RequestHeaders
deriving DecidableEq, Repr

/-- LogOut is the observable outcome of one logError call: the state
after it, the report transmitted if any, and whether the extractor was
invoked. -/
structure LogOut where
  st : EBState
  report : Option Report
  invoked : Bool
deriving DecidableEq, Repr

/-- mkReport assembles the report exactly as the fetch call in logError
does: the fixed endpoint, the JSON body fields, and the headers drawn
from the sdk key and the stored metadata, with a missing metadata record
read as an empty one. -/
def mkReport (st : EBState) (tag : String) (name : String) (info : String)
    (extra : List (String × String)) : Report :=
  let metadata := st.statsigMetadata.getD []
  { url := ExceptionEndpoint
    tag := tag
    exception := name
    info := info
    statsigMetadata := metadata
    extra := extra
    headers :=
      { apiKey := st.sdkKey
        sdkType := metaToString (recLookup metadata "sdkType")
        sdkVersion := metaToString (recLookup metadata "sdkVersion")
        contentType := "application/json; charset=UTF-8" } }

/-- logErrorCore is the part of the logError body after the extractor
has been awaited: unwrap the error, compute its deduplication name,
return early when the name was already seen, otherwise add the name to
the seen set and, when the body serializes, transmit the report.  The
second component is the fault the async wrapper would have to swallow:
a stringify failure, or a rejection of the fetch promise given by
fetchOut. -/
def logErrorCore (st : EBState) (tag : String) (error : JSErr)
    (extra : Option (List (String × String))) (serializable : Bool)
    (invoked : Bool) (fetchOut : Option JSErr) : LogOut × Option JSErr :=
  let unwrapped := unwrapErr error
  let name := errorName unwrapped
  if st.seen.contains name then
    ({ st := st, report := none, invoked := invoked }, none)
  else
    let st1 : EBState := { st with seen := name :: st.seen }
    if serializable then
      ({ st := st1
         report := some (mkReport st tag name (errorInfo unwrapped) (extra.getD []))
         invoked := invoked }, fetchOut)
    else
      ({ st := st1, report := none, invoked := invoked },
        some (.errObj .plain "TypeError" "Converting circular structure to JSON"))

/-- logErrorAux is the body of the immediately invoked async function in
logError, before the enclosing try catch and the final catch noop are
applied: the extractor, when present, is invoked first and its failure
aborts everything after it.  The second component is the fault that
escapes the body; the source discards it. -/
def logErrorAux (st : EBState) (tag : String) (error : JSErr)
    (getExtraData : Option ExtraOutcome) (fetchOut : Option JSErr) :
    LogOut × Option JSErr :=
  match getExtraData with
  | some (.throws e) => ({ st := st, report := none, invoked := true }, some e)
  | some (.ok entries ser) => logErrorCore st tag error (some entries) ser true fetchOut
  | none => logErrorCore st tag error none true false fetchOut

/-- logError models the public logError method: it runs the async body
and discards any fault, as the enclosing try catch and the final catch
noop of the source do, so nothing ever escapes to the caller. -/
def logError (st : EBState) (tag : String) (error : JSErr)
    (getExtraData : Option ExtraOutcome) (fetchOut : Option JSErr) : LogOut :=
  (logErrorAux st tag error getExtraData fetchOut).1

/-- Outcome is the behaviour of a task passed to capture: it returns a
plain value, throws synchronously, or returns a promise that resolves
or rejects. -/
inductive Outcome (T : Type) where
  | syncVal (v : T)
  | syncThrow (e : JSErr)
  | asyncVal (v : T)
  | asyncThrow (e : JSErr)
deriving DecidableEq, Repr

/-- CResult is the caller-visible completion of a capture call: a plain
return, a synchronous throw, or a returned promise that resolves or
rejects. -/
inductive CResult (T : Type) where
  | ret (v : T)
  | thrown (e : JSErr)
  | resolved (v : T)
  | rejected (e : JSErr)
deriving DecidableEq, Repr

/-- CaptureOut is the observable outcome of one capture call: its
caller-visible completion, the state after it, the reports transmitted,
and whether the extractor was invoked. -/
structure CaptureOut (T : Type) where
  result : CResult T
  st : EBState
  reports : List Report
  extraInvoked : Bool
deriving DecidableEq, Repr

/-- onCaught models the private onCaught method: a contract-violation
error is rethrown unchanged; any other error is logged through logError
and the recovery value is returned.  The console line of the source has
no modelled observable. -/
def onCaught {T : Type} (st : EBState) (tag : String) (error : JSErr) (recover : T)
    (getExtraData : Option ExtraOutcome) (fetchOut : Option JSErr) :
    Except JSErr (T × LogOut) :=
  if error.isContractViolation then
    .error error
  else
    .ok (recover, logError st tag error getExtraData fetchOut)

/-- capture models the public capture method.  The options object is
passed as its two destructured fields getExtraData and configName, the
extractor as its outcome when invoked, and fetchOut as the outcome of
the fetch the reporting path may perform.  The four task behaviours
follow the source: a synchronous value ends the marker with the config
name and returns the value; a synchronous throw ends the marker with the
config name, then runs onCaught inside the catch block, so a rethrown
contract violation escapes after the end marker is recorded; a resolving
promise ends the marker without a config name; a rejecting promise runs
onCaught inside the promise catch handler, whose rethrow skips the then
step, so no end marker is recorded, while a recovered rejection ends the
marker, again without a config name. -/
def capture {T : Type} (st : EBState) (tag : String) (task : Outcome T) (recover : T)
    (getExtraData : Option ExtraOutcome) (configName : Option String)
    (fetchOut : Option JSErr) : CaptureOut T :=
  let bm := beginMarker st tag
  let markerID := bm.1
  let st1 := bm.2
  match task with
  | .syncVal v =>
    { result := .ret v
      st := endMarker st1 tag true markerID configName
      reports := []
      extraInvoked := false }
  | .syncThrow e =>
    let st2 := endMarker st1 tag false markerID configName
    match onCaught st2 tag e recover getExtraData fetchOut with
    | .error err =>
      { result := .thrown err, st := st2, reports := [], extraInvoked := false }
    | .ok (v, out) =>
      { result := .ret v, st := out.st, reports := out.report.toList
        extraInvoked := out.invoked }
  | .asyncVal v =>
    { result := .resolved v
      st := endMarker st1 tag true markerID none
      reports := []
      extraInvoked := false }
  | .asyncThrow e =>
    match onCaught st1 tag e recover getExtraData fetchOut with
    | .error err =>
      { result := .rejected err, st := st1, reports := [], extraInvoked := false }
    | .ok (v, out) =>
      { result := .resolved v
        st := endMarker out.st tag false markerID none
        reports := out.report.toList
        extraInvoked := out.invoked }

/-- thrownOf extracts the synchronously thrown error of a completion. -/
def thrownOf {T : Type} : CResult T → Option JSErr
  | .thrown e => some e
  | _ => none

/-- rejectedOf extracts the rejection of a returned promise. -/
def rejectedOf {T : Type} : CResult T → Option JSErr
  | .rejected e => some e
  | _ => none

/-- liftOutcome embeds a task of type T into type Option T, matching the
typing of the swallow wrapper whose recovery value is undefined. -/
def liftOutcome {T : Type} : Outcome T → Outcome (Option T)
  | .syncVal v => .syncVal (some v)
  | .syncThrow e => .syncThrow e
  | .asyncVal v => .asyncVal (some v)
  | .asyncThrow e => .asyncThrow e

/-- SwallowOut is the observable outcome of one swallow call.  The
method itself returns no value; its caller can only observe an error
thrown synchronously out of it.  A rejection of the discarded promise
reaches nobody and surfaces only as an unhandled rejection of the host
environment. -/
structure SwallowOut where
  syncThrown : Option JSErr
  unhandledRejection : Option JSErr
  st : EBState
  reports : List Report
  extraInvoked : Bool
deriving DecidableEq, Repr

/-- swallow models the public swallow method: it calls capture with a
recover function returning undefined and discards the returned value. -/
def swallow {T : Type} (st : EBState) (tag : String) (task : Outcome T)
    (getExtraData : Option ExtraOutcome) (configName : Option String)
    (fetchOut : Option JSErr) : SwallowOut :=
  let out := capture st tag (liftOutcome task) (none : Option T) getExtraData configName fetchOut
  { syncThrown := thrownOf out.result
    unhandledRejection := rejectedOf out.result
    st := out.st
    reports := out.reports
    extraInvoked := out.extraInvoked }

/-- SessionOp is one operation performed on an ErrorBoundary during a
session; task values are drawn from Nat, standing in for an arbitrary
value universe. -/
inductive SessionOp where
  | captureOp (tag : String) (task : Outcome Nat) (recover : Nat)
      (getExtraData : Option ExtraOutcome) (configName : Option String)
      (fetchOut : Option JSErr)
  | swallowOp (tag : String) (task : Outcome Nat)
      (getExtraData : Option ExtraOutcome) (configName : Option String)
      (fetchOut : Option JSErr)
  | logErrorOp (tag : String) (error : JSErr)
      (getExtraData : Option ExtraOutcome) (fetchOut : Option JSErr)
  | setMetadataOp (m : List (String × MetaVal))
deriving DecidableEq, Repr

/-- stepOp runs one session operation, returning the next state and the
reports that operation transmitted. -/
def stepOp (st : EBState) : SessionOp → EBState × List Report
  | .captureOp tag task recover x cn f =>
    let out := capture st tag task recover x cn f
    (out.st, out.reports)
  | .swallowOp tag task x cn f =>
    let out := swallow st tag task x cn f
    (out.st, out.reports)
  | .logErrorOp tag error x f =>
    let out := logError st tag error x f
    (out.st, out.report.toList)
  | .setMetadataOp m => (setStatsigMetadata st m, [])

/-- runSession runs a list of session operations from a state,
collecting every transmitted report in order. -/
def runSession (st : EBState) : List SessionOp → EBState × List Report
  | [] => (st, [])
  | op :: rest =>
    let s := stepOp st op
    let r := runSession s.1 rest
    (r.1, s.2 ++ r.2)

/-- countReportsNamed counts the reports whose exception field is a
given name. -/
def countReportsNamed (n : String) (rs : List Report) : Nat :=
  (rs.filter (fun r => r.exception == n)).length

/-- Preservation of every field except the marker list by beginMarker. -/
theorem beginMarker_fields (st : EBState) (tag : String) :
    (beginMarker st tag).2.seen = st.seen ∧
    (beginMarker st tag).2.sdkKey = st.sdkKey ∧
    (beginMarker st tag).2.statsigMetadata = st.statsigMetadata ∧
    (beginMarker st tag).2.diag.maxMarkers = st.diag.maxMarkers := by
  unfold beginMarker
  by_cases h : st.diag.markers.length < st.diag.maxMarkers <;> simp [h]

/-- Preservation of every field except the marker list by endMarker. -/
theorem endMarker_fields (st : EBState) (tag : String) (b : Bool)
    (m : Option String) (cn : Option String) :
    (endMarker st tag b m cn).seen = st.seen ∧
    (endMarker st tag b m cn).sdkKey = st.sdkKey ∧
    (endMarker st tag b m cn).statsigMetadata = st.statsigMetadata ∧
    (endMarker st tag b m cn).diag.maxMarkers = st.diag.maxMarkers := by
  cases m <;> simp [endMarker]

/-- Preservation of every field except the seen set by logError. -/
theorem logError_frame (st : EBState) (tag : String) (e : JSErr)
    (x : Option ExtraOutcome) (f : Option JSErr) :
    (logError st tag e x f).st.diag = st.diag ∧
    (logError st tag e x f).st.sdkKey = st.sdkKey ∧
    (logError st tag e x f).st.statsigMetadata = st.statsigMetadata := by
  unfold logError logErrorAux logErrorCore
  rcases x with _ | (e' | ⟨en, ser⟩)
  · by_cases h : errorName (unwrapErr e) ∈ st.seen <;> simp [h]
  · simp
  · by_cases h : errorName (unwrapErr e) ∈ st.seen <;>
      cases ser <;> simp [h]

/-- Description of the seen set after logError: it is unchanged or gains
exactly the deduplication name of the error. -/
theorem logError_seen (st : EBState) (tag : String) (e : JSErr)
    (x : Option ExtraOutcome) (f : Option JSErr) :
    (logError st tag e x f).st.seen = st.seen ∨
    (logError st tag e x f).st.seen = errorName (unwrapErr e) :: st.seen := by
  unfold logError logErrorAux logErrorCore
  rcases x with _ | (e' | ⟨en, ser⟩)
  · by_cases h : errorName (unwrapErr e) ∈ st.seen <;> simp [h]
  · simp
  · by_cases h : errorName (unwrapErr e) ∈ st.seen <;>
      cases ser <;> simp [h]

/-- Name of a transmitted report: it is the deduplication identity of
the error that produced it. -/
theorem logError_report_name (st : EBState) (tag : String) (e : JSErr)
    (x : Option ExtraOutcome) (f : Option JSErr) (r : Report) :
    (logError st tag e x f).report = some r →
    r.exception = errorName (unwrapErr e) := by
  unfold logError logErrorAux logErrorCore
  rcases x with _ | (e' | ⟨en, ser⟩)
  · by_cases h : errorName (unwrapErr e) ∈ st.seen <;> simp [h]
    intro hr
    rw [← hr]
    simp [mkReport]
  · simp
  · by_cases h : errorName (unwrapErr e) ∈ st.seen <;>
      cases ser <;> simp [h]
    intro hr
    rw [← hr]
    simp [mkReport]

/-- Freshness of a transmitted report: its name was not in the seen set
before the call and is in the seen set after it. -/
theorem logError_report_fresh (st : EBState) (tag : String) (e : JSErr)
    (x : Option ExtraOutcome) (f : Option JSErr) (r : Report) :
    (logError st tag e x f).report = some r →
    r.exception ∉ st.seen ∧ r.exception ∈ (logError st tag e x f).st.seen := by
  unfold logError logErrorAux logErrorCore
  rcases x with _ | (e' | ⟨en, ser⟩)
  · by_cases h : errorName (unwrapErr e) ∈ st.seen <;> simp [h]
    intro hr
    constructor
    · rw [← hr]
      exact h
    · rw [← hr]
      exact Or.inl rfl
  · simp
  · by_cases h : errorName (unwrapErr e) ∈ st.seen <;>
      cases ser <;> simp [h]
    intro hr
    constructor
    · rw [← hr]
      exact h
    · rw [← hr]
      exact Or.inl rfl

/-- Deduplication: when the name of the error is already in the seen
set, logError neither transmits a report nor changes the state. -/
theorem logError_dedup (st : EBState) (tag : String) (e : JSErr)
    (x : Option ExtraOutcome) (f : Option JSErr)
    (h : errorName (unwrapErr e) ∈ st.seen) :
    (logError st tag e x f).report = none ∧ (logError st tag e x f).st = st := by
  unfold logError logErrorAux logErrorCore
  rcases x with _ | (e' | ⟨en, ser⟩)
  · simp [h]
  · simp
  · cases ser <;> simp [h]

/-- Growth of the seen set: membership is never lost by logError. -/
theorem logError_seen_mono (st : EBState) (tag : String) (e : JSErr)
    (x : Option ExtraOutcome) (f : Option JSErr) (n : String)
    (h : n ∈ st.seen) : n ∈ (logError st tag e x f).st.seen := by
  rcases logError_seen st tag e x f with hs | hs <;> rw [hs]
  · exact h
  · exact List.mem_cons_of_mem _ h

/-- Reporting on a fresh name: when the name of the error is not yet in
the seen set and the extractor is absent, or present and successful with
a serializable result, logError adds the name and transmits the report
assembled by mkReport. -/
theorem logError_success (st : EBState) (tag : String) (e : JSErr)
    (f : Option JSErr) (en : List (String × String))
    (h : errorName (unwrapErr e) ∉ st.seen) :
    (logError st tag e none f).report =
      some (mkReport st tag (errorName (unwrapErr e)) (errorInfo (unwrapErr e)) []) ∧
    (logError st tag e none f).st.seen = errorName (unwrapErr e) :: st.seen ∧
    (logError st tag e (some (.ok en true)) f).report =
      some (mkReport st tag (errorName (unwrapErr e)) (errorInfo (unwrapErr e)) en) ∧
    (logError st tag e (some (.ok en true)) f).st.seen =
      errorName (unwrapErr e) :: st.seen := by
  unfold logError logErrorAux logErrorCore
  simp [h]

/-- Burning of a fresh name by a non-serializable extra record: when the
extractor succeeds but its result makes the body fail serialization, the
name is still added to the seen set (the source adds it before it calls
JSON.stringify) while no report is transmitted. -/
theorem logError_nonserializable (st : EBState) (tag : String) (e : JSErr)
    (f : Option JSErr) (en : List (String × String))
    (h : errorName (unwrapErr e) ∉ st.seen) :
    (logError st tag e (some (.ok en false)) f).report = none ∧
    (logError st tag e (some (.ok en false)) f).st.seen =
      errorName (unwrapErr e) :: st.seen := by
  unfold logError logErrorAux logErrorCore
  simp [h]

/-- Abortion of reporting by a failing extractor: the state is untouched
and no report is transmitted. -/
theorem logError_extractor_throws (st : EBState) (tag : String) (e : JSErr)
    (e' : JSErr) (f : Option JSErr) :
    (logError st tag e (some (.throws e')) f).report = none ∧
    (logError st tag e (some (.throws e')) f).st = st ∧
    (logError st tag e (some (.throws e')) f).invoked = true := by
  unfold logError logErrorAux
  simp

/-- Invocation of the extractor by logError: it is invoked exactly when
one was supplied. -/
theorem logError_invoked (st : EBState) (tag : String) (e : JSErr)
    (x : Option ExtraOutcome) (f : Option JSErr) :
    (logError st tag e x f).invoked = x.isSome := by
  unfold logError logErrorAux logErrorCore
  rcases x with _ | (e' | ⟨en, ser⟩)
  · by_cases h : errorName (unwrapErr e) ∈ st.seen <;> simp [h]
  · simp
  · by_cases h : errorName (unwrapErr e) ∈ st.seen <;>
      cases ser <;> simp [h]

/-- Congruence of logError in the state: its report, its effect on the
seen set and its invocation flag depend only on the seen set, the sdk
key and the metadata of the state. -/
theorem logError_congr (st st' : EBState) (tag : String) (e : JSErr)
    (x : Option ExtraOutcome) (f : Option JSErr)
    (h1 : st'.seen = st.seen) (h2 : st'.sdkKey = st.sdkKey)
    (h3 : st'.statsigMetadata = st.statsigMetadata) :
    (logError st' tag e x f).report = (logError st tag e x f).report ∧
    (logError st' tag e x f).st.seen = (logError st tag e x f).st.seen ∧
    (logError st' tag e x f).invoked = (logError st tag e x f).invoked := by
  unfold logError logErrorAux logErrorCore mkReport
  rcases x with _ | (e' | ⟨en, ser⟩)
  · by_cases h : errorName (unwrapErr e) ∈ st.seen <;> simp [h, h1, h2, h3]
  · simp [h1]
  · by_cases h : errorName (unwrapErr e) ∈ st.seen <;>
      cases ser <;> simp [h, h1, h2, h3]

/-- Closed form of beginMarker when the capacity admits a new marker. -/
theorem beginMarker_pos (st : EBState) (tag : String)
    (h : st.diag.markers.length < st.diag.maxMarkers) :
    beginMarker st tag =
      (some (tag ++ "_" ++ toString st.diag.markers.length),
        { st with diag :=
            { st.diag with markers := st.diag.markers ++
                [.startMark (tag ++ "_" ++ toString st.diag.markers.length) tag] } }) := by
  simp [beginMarker, h]

/-- Closed form of beginMarker when the capacity is exhausted. -/
theorem beginMarker_neg (st : EBState) (tag : String)
    (h : ¬ st.diag.markers.length < st.diag.maxMarkers) :
    beginMarker st tag = (none, st) := by
  simp [beginMarker, h]

/-- Closed form of endMarker with a marker id. -/
theorem endMarker_some (st : EBState) (tag : String) (b : Bool) (id : String)
    (cn : Option String) :
    endMarker st tag b (some id) cn =
      { st with diag :=
          { st.diag with markers := st.diag.markers ++ [.endMark id tag b cn] } } := rfl

/-- Closed form of endMarker without a marker id. -/
theorem endMarker_none (st : EBState) (tag : String) (b : Bool)
    (cn : Option String) : endMarker st tag b none cn = st := rfl

/-- Shape of capture on a task returning a plain value. -/
theorem capture_eq_syncVal {T : Type} (st : EBState) (tag : String) (v : T)
    (recover : T) (x : Option ExtraOutcome) (cn : Option String) (f : Option JSErr) :
    capture st tag (.syncVal v) recover x cn f =
      { result := .ret v
        st := endMarker (beginMarker st tag).2 tag true (beginMarker st tag).1 cn
        reports := []
        extraInvoked := false } := rfl

/-- Shape of capture on a task returning a resolving promise. -/
theorem capture_eq_asyncVal {T : Type} (st : EBState) (tag : String) (v : T)
    (recover : T) (x : Option ExtraOutcome) (cn : Option String) (f : Option JSErr) :
    capture st tag (.asyncVal v) recover x cn f =
      { result := .resolved v
        st := endMarker (beginMarker st tag).2 tag true (beginMarker st tag).1 none
        reports := []
        extraInvoked := false } := rfl

/-- Shape of capture on a synchronous contract-violation throw. -/
theorem capture_eq_syncThrow_cv {T : Type} (st : EBState) (tag : String) (e : JSErr)
    (recover : T) (x : Option ExtraOutcome) (cn : Option String) (f : Option JSErr)
    (h : e.isContractViolation = true) :
    capture st tag (.syncThrow e) recover x cn f =
      { result := .thrown e
        st := endMarker (beginMarker st tag).2 tag false (beginMarker st tag).1 cn
        reports := []
        extraInvoked := false } := by
  unfold capture onCaught
  simp [h]

/-- Shape of capture on a synchronous unexpected throw. -/
theorem capture_eq_syncThrow {T : Type} (st : EBState) (tag : String) (e : JSErr)
    (recover : T) (x : Option ExtraOutcome) (cn : Option String) (f : Option JSErr)
    (h : e.isContractViolation = false) :
    capture st tag (.syncThrow e) recover x cn f =
      { result := .ret recover
        st := (logError (endMarker (beginMarker st tag).2 tag false (beginMarker st tag).1 cn)
          tag e x f).st
        reports := (logError (endMarker (beginMarker st tag).2 tag false (beginMarker st tag).1 cn)
          tag e x f).report.toList
        extraInvoked := (logError (endMarker (beginMarker st tag).2 tag false (beginMarker st tag).1 cn)
          tag e x f).invoked } := by
  unfold capture onCaught
  simp [h]

/-- Shape of capture on a promise rejecting with a contract violation. -/
theorem capture_eq_asyncThrow_cv {T : Type} (st : EBState) (tag : String) (e : JSErr)
    (recover : T) (x : Option ExtraOutcome) (cn : Option String) (f : Option JSErr)
    (h : e.isContractViolation = true) :
    capture st tag (.asyncThrow e) recover x cn f =
      { result := .rejected e
        st := (beginMarker st tag).2
        reports := []
        extraInvoked := false } := by
  unfold capture onCaught
  simp [h]

/-- Shape of capture on a promise rejecting with an unexpected error. -/
theorem capture_eq_asyncThrow {T : Type} (st : EBState) (tag : String) (e : JSErr)
    (recover : T) (x : Option ExtraOutcome) (cn : Option String) (f : Option JSErr)
    (h : e.isContractViolation = false) :
    capture st tag (.asyncThrow e) recover x cn f =
      { result := .resolved recover
        st := endMarker (logError (beginMarker st tag).2 tag e x f).st tag false
          (beginMarker st tag).1 none
        reports := (logError (beginMarker st tag).2 tag e x f).report.toList
        extraInvoked := (logError (beginMarker st tag).2 tag e x f).invoked } := by
  unfold capture onCaught
  simp [h]

/-- Counting reports of a given name distributes over appending. -/
theorem countReportsNamed_append (n : String) (a b : List Report) :
    countReportsNamed n (a ++ b) = countReportsNamed n a + countReportsNamed n b := by
  simp [countReportsNamed]

/-- Counting reports of a given name in an empty batch. -/
theorem countReportsNamed_nil (n : String) : countReportsNamed n [] = 0 := rfl

/-- Per-call facts about logError used by the session induction: a name
already seen stays seen and is never reported again, a single call
transmits at most one report of any name, and a transmitted name is in
the seen set afterwards. -/
theorem logError_step_facts (st : EBState) (tag : String) (e : JSErr)
    (x : Option ExtraOutcome) (f : Option JSErr) (n : String) :
    (n ∈ st.seen → n ∈ (logError st tag e x f).st.seen ∧
      countReportsNamed n (logError st tag e x f).report.toList = 0) ∧
    countReportsNamed n (logError st tag e x f).report.toList ≤ 1 ∧
    (1 ≤ countReportsNamed n (logError st tag e x f).report.toList →
      n ∈ (logError st tag e x f).st.seen) := by
  refine ⟨fun hn => ⟨logError_seen_mono st tag e x f n hn, ?_⟩, ?_, fun h1 => ?_⟩
  · cases hr : (logError st tag e x f).report with
    | none => simp [countReportsNamed]
    | some r =>
      have hf := logError_report_fresh st tag e x f r hr
      have hne : r.exception ≠ n := fun hEq => hf.1 (hEq ▸ hn)
      simp [countReportsNamed, hne]
  · cases hr : (logError st tag e x f).report with
    | none => simp [countReportsNamed]
    | some r => by_cases hq : r.exception = n <;> simp [countReportsNamed, hq]
  · cases hr : (logError st tag e x f).report with
    | none => rw [hr] at h1; simp [countReportsNamed] at h1
    | some r =>
      have hf := logError_report_fresh st tag e x f r hr
      by_cases hq : r.exception = n
      · exact hq ▸ hf.2
      · rw [hr] at h1; simp [countReportsNamed, hq] at h1

/-- Per-call facts about capture, in the same three-part form, obtained
from the logError facts through the marker-preservation lemmas. -/
theorem capture_step_facts {T : Type} (st : EBState) (tag : String)
    (task : Outcome T) (recover : T) (x : Option ExtraOutcome)
    (cn : Option String) (f : Option JSErr) (n : String) :
    (n ∈ st.seen → n ∈ (capture st tag task recover x cn f).st.seen ∧
      countReportsNamed n (capture st tag task recover x cn f).reports = 0) ∧
    countReportsNamed n (capture st tag task recover x cn f).reports ≤ 1 ∧
    (1 ≤ countReportsNamed n (capture st tag task recover x cn f).reports →
      n ∈ (capture st tag task recover x cn f).st.seen) := by
  have hb := beginMarker_fields st tag
  cases task with
  | syncVal v =>
    have he := endMarker_fields (beginMarker st tag).2 tag true (beginMarker st tag).1 cn
    have hseen : (capture st tag (Outcome.syncVal v) recover x cn f).st.seen = st.seen := by
      rw [capture_eq_syncVal st tag v recover x cn f]
      exact he.1.trans hb.1
    have hrep : (capture st tag (Outcome.syncVal v) recover x cn f).reports = [] := by
      rw [capture_eq_syncVal st tag v recover x cn f]
    rw [hseen, hrep]
    refine ⟨fun hn => ⟨hn, rfl⟩, by simp [countReportsNamed], fun h1 => ?_⟩
    simp [countReportsNamed] at h1
  | asyncVal v =>
    have he := endMarker_fields (beginMarker st tag).2 tag true (beginMarker st tag).1 none
    have hseen : (capture st tag (Outcome.asyncVal v) recover x cn f).st.seen = st.seen := by
      rw [capture_eq_asyncVal st tag v recover x cn f]
      exact he.1.trans hb.1
    have hrep : (capture st tag (Outcome.asyncVal v) recover x cn f).reports = [] := by
      rw [capture_eq_asyncVal st tag v recover x cn f]
    rw [hseen, hrep]
    refine ⟨fun hn => ⟨hn, rfl⟩, by simp [countReportsNamed], fun h1 => ?_⟩
    simp [countReportsNamed] at h1
  | syncThrow e =>
    by_cases hcv : e.isContractViolation = true
    · have he := endMarker_fields (beginMarker st tag).2 tag false (beginMarker st tag).1 cn
      have hseen : (capture st tag (Outcome.syncThrow e) recover x cn f).st.seen = st.seen := by
        rw [capture_eq_syncThrow_cv st tag e recover x cn f hcv]
        exact he.1.trans hb.1
      have hrep : (capture st tag (Outcome.syncThrow e) recover x cn f).reports = [] := by
        rw [capture_eq_syncThrow_cv st tag e recover x cn f hcv]
      rw [hseen, hrep]
      refine ⟨fun hn => ⟨hn, rfl⟩, by simp [countReportsNamed], fun h1 => ?_⟩
      simp [countReportsNamed] at h1
    · have hcv' : e.isContractViolation = false := by simpa using hcv
      have he := endMarker_fields (beginMarker st tag).2 tag false (beginMarker st tag).1 cn
      have hcong := logError_congr st
        (endMarker (beginMarker st tag).2 tag false (beginMarker st tag).1 cn) tag e x f
        (he.1.trans hb.1) (he.2.1.trans hb.2.1) (he.2.2.1.trans hb.2.2.1)
      have hseen : (capture st tag (Outcome.syncThrow e) recover x cn f).st.seen
          = (logError st tag e x f).st.seen := by
        rw [capture_eq_syncThrow st tag e recover x cn f hcv']
        exact hcong.2.1
      have hrep : (capture st tag (Outcome.syncThrow e) recover x cn f).reports
          = (logError st tag e x f).report.toList := by
        rw [capture_eq_syncThrow st tag e recover x cn f hcv']
        exact congrArg Option.toList hcong.1
      rw [hseen, hrep]
      exact logError_step_facts st tag e x f n
  | asyncThrow e =>
    by_cases hcv : e.isContractViolation = true
    · have hseen : (capture st tag (Outcome.asyncThrow e) recover x cn f).st.seen = st.seen := by
        rw [capture_eq_asyncThrow_cv st tag e recover x cn f hcv]
        exact hb.1
      have hrep : (capture st tag (Outcome.asyncThrow e) recover x cn f).reports = [] := by
        rw [capture_eq_asyncThrow_cv st tag e recover x cn f hcv]
      rw [hseen, hrep]
      refine ⟨fun hn => ⟨hn, rfl⟩, by simp [countReportsNamed], fun h1 => ?_⟩
      simp [countReportsNamed] at h1
    · have hcv' : e.isContractViolation = false := by simpa using hcv
      have hcong := logError_congr st (beginMarker st tag).2 tag e x f hb.1 hb.2.1 hb.2.2.1
      have he := endMarker_fields (logError (beginMarker st tag).2 tag e x f).st tag false
        (beginMarker st tag).1 none
      have hseen : (capture st tag (Outcome.asyncThrow e) recover x cn f).st.seen
          = (logError st tag e x f).st.seen := by
        rw [capture_eq_asyncThrow st tag e recover x cn f hcv']
        exact he.1.trans hcong.2.1
      have hrep : (capture st tag (Outcome.asyncThrow e) recover x cn f).reports
          = (logError st tag e x f).report.toList := by
        rw [capture_eq_asyncThrow st tag e recover x cn f hcv']
        exact congrArg Option.toList hcong.1
      rw [hseen, hrep]
      exact logError_step_facts st tag e x f n

/-- Per-operation facts for the session induction. -/
theorem stepOp_facts (st : EBState) (op : SessionOp) (n : String) :
    (n ∈ st.seen → n ∈ (stepOp st op).1.seen ∧
      countReportsNamed n (stepOp st op).2 = 0) ∧
    countReportsNamed n (stepOp st op).2 ≤ 1 ∧
    (1 ≤ countReportsNamed n (stepOp st op).2 → n ∈ (stepOp st op).1.seen) := by
  cases op with
  | captureOp tag task recover x cn f => exact capture_step_facts st tag task recover x cn f n
  | swallowOp tag task x cn f => exact capture_step_facts st tag (liftOutcome task) none x cn f n
  | logErrorOp tag e x f => exact logError_step_facts st tag e x f n
  | setMetadataOp m =>
    refine ⟨fun hn => ⟨hn, rfl⟩, by simp [stepOp, countReportsNamed], fun h1 => ?_⟩
    simp [stepOp, countReportsNamed] at h1

/-- Session-level deduplication bound: a whole session transmits at most
one report of a given name, and none at all when the name was already in
the seen set when the session fragment started. -/
theorem runSession_count_le (ops : List SessionOp) :
    ∀ (st : EBState) (n : String),
      countReportsNamed n (runSession st ops).2 ≤ if n ∈ st.seen then 0 else 1 := by
  induction ops with
  | nil => intro st n; simp [runSession, countReportsNamed]
  | cons op rest ih =>
    intro st n
    have hstep := stepOp_facts st op n
    have hrec := ih (stepOp st op).1 n
    have happ : countReportsNamed n (runSession st (op :: rest)).2
        = countReportsNamed n (stepOp st op).2
          + countReportsNamed n (runSession (stepOp st op).1 rest).2 := by
      simp only [runSession]
      exact countReportsNamed_append n _ _
    rw [happ]
    by_cases hn : n ∈ st.seen
    · have h0 := hstep.1 hn
      rw [h0.2]
      simp only [hn, if_pos]
      have : countReportsNamed n (runSession (stepOp st op).1 rest).2 ≤ 0 := by
        rw [if_pos h0.1] at hrec
        exact hrec
      omega
    · simp only [hn, if_neg, not_false_iff]
      by_cases h1 : 1 ≤ countReportsNamed n (stepOp st op).2
      · have hm := hstep.2.2 h1
        have hz : countReportsNamed n (runSession (stepOp st op).1 rest).2 ≤ 0 := by
          rw [if_pos hm] at hrec
          exact hrec
        have h2 := hstep.2.1
        omega
      · have hz : countReportsNamed n (stepOp st op).2 = 0 := by omega
        have hle : (if n ∈ (stepOp st op).1.seen then 0 else 1) ≤ 1 := by
          split <;> omega
        omega

/-- C1: for every tag, task, recover and options, a task that throws
synchronously, or returns a promise that rejects, with one of the two
contract-violation error kinds has that exact error object propagated
by capture, as a synchronous throw respectively a rejection of the
returned promise; it is never replaced by the recovery value, no report
is transmitted to the exception endpoint, and the seen set is
untouched. -/
theorem capture_propagates_contract_violations {T : Type} (st : EBState)
    (tag : String) (recover : T) (x : Option ExtraOutcome) (cn : Option String)
    (f : Option JSErr) (e : JSErr) (h : e.isContractViolation = true) :
    (capture st tag (.syncThrow e) recover x cn f).result = .thrown e ∧
    (capture st tag (.syncThrow e) recover x cn f).reports = [] ∧
    (capture st tag (.syncThrow e) recover x cn f).st.seen = st.seen ∧
    (capture st tag (.syncThrow e) recover x cn f).extraInvoked = false ∧
    (capture st tag (.asyncThrow e) recover x cn f).result = .rejected e ∧
    (capture st tag (.asyncThrow e) recover x cn f).reports = [] ∧
    (capture st tag (.asyncThrow e) recover x cn f).st.seen = st.seen ∧
    (capture st tag (.asyncThrow e) recover x cn f).extraInvoked = false := by
  have hb := beginMarker_fields st tag
  have he := endMarker_fields (beginMarker st tag).2 tag false (beginMarker st tag).1 cn
  simp only [capture_eq_syncThrow_cv st tag e recover x cn f h,
    capture_eq_asyncThrow_cv st tag e recover x cn f h]
  simp [he.1, hb.1]

/-- Witness for C1 at a concrete uninitialized-call error. -/
theorem capture_propagates_contract_violations_witness :
    (JSErr.errObj .uninitialized "StatsigUninitializedError" "trace").isContractViolation
      = true ∧
    ((capture (mkErrorBoundary "sdk-key" 1) "checkGate"
        (.syncThrow (.errObj .uninitialized "StatsigUninitializedError" "trace"))
        (0 : Nat) none none none).result =
      .thrown (.errObj .uninitialized "StatsigUninitializedError" "trace") ∧
    (capture (mkErrorBoundary "sdk-key" 1) "checkGate"
        (.syncThrow (.errObj .uninitialized "StatsigUninitializedError" "trace"))
        (0 : Nat) none none none).reports = [] ∧
    (capture (mkErrorBoundary "sdk-key" 1) "checkGate"
        (.syncThrow (.errObj .uninitialized "StatsigUninitializedError" "trace"))
        (0 : Nat) none none none).st.seen = (mkErrorBoundary "sdk-key" 1).seen ∧
    (capture (mkErrorBoundary "sdk-key" 1) "checkGate"
        (.syncThrow (.errObj .uninitialized "StatsigUninitializedError" "trace"))
        (0 : Nat) none none none).extraInvoked = false ∧
    (capture (mkErrorBoundary "sdk-key" 1) "checkGate"
        (.asyncThrow (.errObj .uninitialized "StatsigUninitializedError" "trace"))
        (0 : Nat) none none none).result =
      .rejected (.errObj .uninitialized "StatsigUninitializedError" "trace") ∧
    (capture (mkErrorBoundary "sdk-key" 1) "checkGate"
        (.asyncThrow (.errObj .uninitialized "StatsigUninitializedError" "trace"))
        (0 : Nat) none none none).reports = [] ∧
    (capture (mkErrorBoundary "sdk-key" 1) "checkGate"
        (.asyncThrow (.errObj .uninitialized "StatsigUninitializedError" "trace"))
        (0 : Nat) none none none).st.seen = (mkErrorBoundary "sdk-key" 1).seen ∧
    (capture (mkErrorBoundary "sdk-key" 1) "checkGate"
        (.asyncThrow (.errObj .uninitialized "StatsigUninitializedError" "trace"))
        (0 : Nat) none none none).extraInvoked = false) :=
  ⟨rfl, capture_propagates_contract_violations (mkErrorBoundary "sdk-key" 1) "checkGate"
    0 none none none (.errObj .uninitialized "StatsigUninitializedError" "trace") rfl⟩

/-- C2: for every tag, task and recover, a task completing without
failure has its own result returned, or resolved, unchanged by capture,
while a task failing with any error other than the two
contract-violation kinds does not propagate the failure: capture
returns, or resolves with, the value of the recovery function. -/
theorem capture_returns_result_or_recovery {T : Type} (st : EBState) (tag : String)
    (v : T) (recover : T) (x : Option ExtraOutcome) (cn : Option String)
    (f : Option JSErr) (e : JSErr) (h : e.isContractViolation = false) :
    (capture st tag (.syncVal v) recover x cn f).result = .ret v ∧
    (capture st tag (.asyncVal v) recover x cn f).result = .resolved v ∧
    (capture st tag (.syncThrow e) recover x cn f).result = .ret recover ∧
    (capture st tag (.asyncThrow e) recover x cn f).result = .resolved recover := by
  simp only [capture_eq_syncVal st tag v recover x cn f,
    capture_eq_asyncVal st tag v recover x cn f,
    capture_eq_syncThrow st tag e recover x cn f h,
    capture_eq_asyncThrow st tag e recover x cn f h]
  exact ⟨trivial, trivial, trivial, trivial⟩

/-- Witness for C2 at a concrete plain error and concrete values. -/
theorem capture_returns_result_or_recovery_witness :
    (JSErr.errObj .plain "TypeError" "trace").isContractViolation = false ∧
    ((capture (mkErrorBoundary "sdk-key" 1) "logEvent" (.syncVal (3 : Nat)) 7 none none
        none).result = .ret 3 ∧
    (capture (mkErrorBoundary "sdk-key" 1) "logEvent" (.asyncVal (3 : Nat)) 7 none none
        none).result = .resolved 3 ∧
    (capture (mkErrorBoundary "sdk-key" 1) "logEvent"
        (.syncThrow (.errObj .plain "TypeError" "trace")) 7 none none none).result
      = .ret 7 ∧
    (capture (mkErrorBoundary "sdk-key" 1) "logEvent"
        (.asyncThrow (.errObj .plain "TypeError" "trace")) 7 none none none).result
      = .resolved 7) :=
  ⟨rfl, capture_returns_result_or_recovery (mkErrorBoundary "sdk-key" 1) "logEvent"
    3 7 none none none (.errObj .plain "TypeError" "trace") rfl⟩

/-- Counterexample to C3 as stated: an unexpected failure whose name is
not in the seen set is processed while the supplied getExtraData
extractor itself fails; the extractor failure aborts the reporting body
before the deduplication step, so no report is transmitted and the name
is not added to the seen set, contradicting the sentence that the first
unexpected failure with an unseen name is reported and its name added. -/
theorem first_unseen_failure_not_reported_on_extractor_failure :
    (mkErrorBoundary "sdk-key" 1).seen = [] ∧
    (capture (mkErrorBoundary "sdk-key" 1) "checkGate"
        (.syncThrow (.errObj .plain "NetworkError" "trace")) (0 : Nat)
        (some (.throws (.errObj .plain "ExtractorError" "trace2"))) none
        none).reports = [] ∧
    (capture (mkErrorBoundary "sdk-key" 1) "checkGate"
        (.syncThrow (.errObj .plain "NetworkError" "trace")) (0 : Nat)
        (some (.throws (.errObj .plain "ExtractorError" "trace2"))) none
        none).st.seen = [] := ⟨rfl, rfl, rfl⟩

/-- C3 as amended: within one ErrorBoundary session, at most one
exception report is ever transmitted per failure name.  An unexpected
failure whose name is not yet in the seen set has its name added and its
report transmitted when the extractor is absent, or succeeds with a
record the body can serialize; when the extractor succeeds but its
result defeats serialization, the name is still added (the source adds
it before stringifying) yet no report is transmitted; and a throwing or
rejecting extractor aborts reporting before the seen set is consulted,
so no report is sent and the name is not added.  A failure bearing an
already-seen name never produces a report, regardless of tag or
operation. -/
theorem exception_reports_deduplicated_by_name (st : EBState)
    (ops : List SessionOp) (n : String) (tag : String) (e : JSErr)
    (x : Option ExtraOutcome) (f : Option JSErr)
    (en : List (String × String)) (e' : JSErr) :
    (countReportsNamed n (runSession st ops).2 ≤ if n ∈ st.seen then 0 else 1) ∧
    (errorName (unwrapErr e) ∉ st.seen →
      (logError st tag e none f).report =
        some (mkReport st tag (errorName (unwrapErr e)) (errorInfo (unwrapErr e)) []) ∧
      (logError st tag e none f).st.seen = errorName (unwrapErr e) :: st.seen ∧
      (logError st tag e (some (.ok en true)) f).report =
        some (mkReport st tag (errorName (unwrapErr e)) (errorInfo (unwrapErr e)) en) ∧
      (logError st tag e (some (.ok en true)) f).st.seen =
        errorName (unwrapErr e) :: st.seen ∧
      (logError st tag e (some (.ok en false)) f).report = none ∧
      (logError st tag e (some (.ok en false)) f).st.seen =
        errorName (unwrapErr e) :: st.seen) ∧
    (errorName (unwrapErr e) ∈ st.seen → (logError st tag e x f).report = none) ∧
    ((logError st tag e (some (.throws e')) f).report = none ∧
      (logError st tag e (some (.throws e')) f).st = st) := by
  refine ⟨runSession_count_le ops st n, ?_, ?_, ?_⟩
  · intro h
    have hs := logError_success st tag e f en h
    have hns := logError_nonserializable st tag e f en h
    exact ⟨hs.1, hs.2.1, hs.2.2.1, hs.2.2.2, hns.1, hns.2⟩
  · intro h
    exact (logError_dedup st tag e x f h).1
  · exact ⟨(logError_extractor_throws st tag e e' f).1,
      (logError_extractor_throws st tag e e' f).2.1⟩

/-- Witness for the amended C3 at concrete inputs: a fresh NetworkError
is reported and recorded, a fresh failure whose successful extractor
result defeats serialization burns the name without a report, and a
second failure with an already-seen name produces no report. -/
theorem exception_reports_deduplicated_by_name_witness :
    (errorName (unwrapErr (.errObj .plain "NetworkError" "trace")) ∉
      (mkErrorBoundary "sdk-key" 1).seen ∧
    ((logError (mkErrorBoundary "sdk-key" 1) "checkGate"
        (.errObj .plain "NetworkError" "trace") none none).report =
      some (mkReport (mkErrorBoundary "sdk-key" 1) "checkGate"
        (errorName (unwrapErr (.errObj .plain "NetworkError" "trace")))
        (errorInfo (unwrapErr (.errObj .plain "NetworkError" "trace"))) []) ∧
    (logError (mkErrorBoundary "sdk-key" 1) "checkGate"
        (.errObj .plain "NetworkError" "trace") none none).st.seen =
      errorName (unwrapErr (.errObj .plain "NetworkError" "trace")) ::
        (mkErrorBoundary "sdk-key" 1).seen)) ∧
    ((logError (mkErrorBoundary "sdk-key" 1) "checkGate"
        (.errObj .plain "NetworkError" "trace")
        (some (.ok [("a", "b")] false)) none).report = none ∧
    (logError (mkErrorBoundary "sdk-key" 1) "checkGate"
        (.errObj .plain "NetworkError" "trace")
        (some (.ok [("a", "b")] false)) none).st.seen =
      errorName (unwrapErr (.errObj .plain "NetworkError" "trace")) ::
        (mkErrorBoundary "sdk-key" 1).seen) ∧
    (errorName (unwrapErr (.errObj .plain "NetworkError" "trace2")) ∈
      ["NetworkError"] ∧
    (logError { mkErrorBoundary "sdk-key" 1 with seen := ["NetworkError"] }
        "getConfig" (.errObj .plain "NetworkError" "trace2") none none).report
      = none) :=
  ⟨⟨by decide, by
    have h := (exception_reports_deduplicated_by_name (mkErrorBoundary "sdk-key" 1) []
      "NetworkError" "checkGate" (.errObj .plain "NetworkError" "trace") none none [] .nullish).2.1
      (by decide)
    exact ⟨h.1, h.2.1⟩⟩,
   by
    have h := (exception_reports_deduplicated_by_name (mkErrorBoundary "sdk-key" 1) []
      "NetworkError" "checkGate" (.errObj .plain "NetworkError" "trace") none none
      [("a", "b")] .nullish).2.1 (by decide)
    exact ⟨h.2.2.2.2.1, h.2.2.2.2.2⟩,
   ⟨by decide, by
    exact (exception_reports_deduplicated_by_name
      { mkErrorBoundary "sdk-key" 1 with seen := ["NetworkError"] } []
      "NetworkError" "getConfig" (.errObj .plain "NetworkError" "trace2") none none []
      .nullish).2.2.1 (by decide)⟩⟩

/-- Counterexample to C4 as stated: in a sampled session, a capture of a
promise-returning task given a configName records a start marker and an
end marker, but the end marker does not carry the configName from the
options; the promise completion path of the source calls endMarker
without the configName argument. -/
theorem async_end_marker_omits_config_name :
    (capture (mkErrorBoundary "sdk-key" 0) "getConfig" (.asyncVal (0 : Nat)) 0
        none (some "my_config") none).st.diag.markers =
      [.startMark "getConfig_0" "getConfig",
        .endMark "getConfig_0" "getConfig" true none] ∧
    MarkerEvent.endMark "getConfig_0" "getConfig" true (some "my_config") ∉
      (capture (mkErrorBoundary "sdk-key" 0) "getConfig" (.asyncVal (0 : Nat)) 0
        none (some "my_config") none).st.diag.markers := by
  constructor
  · rfl
  · decide

/-- C4 as amended: when a capture call records a start marker (the
marker count is below the capacity), a matching end marker carrying the
success flag of the task is also recorded, with two qualifications
forced by the source: the end marker carries the configName from the
options only on the synchronous paths, the promise paths omit it, and a
promise rejecting with a contract-violation error records no end marker
at all.  When the capacity is zero, no marker is recorded. -/
theorem capture_marker_bracketing {T : Type} (st : EBState) (tag : String)
    (v : T) (recover : T) (x : Option ExtraOutcome) (cn : Option String)
    (f : Option JSErr) (e : JSErr) :
    (st.diag.markers.length < st.diag.maxMarkers →
      ((capture st tag (.syncVal v) recover x cn f).st.diag.markers =
        st.diag.markers ++
          [.startMark (tag ++ "_" ++ toString st.diag.markers.length) tag,
            .endMark (tag ++ "_" ++ toString st.diag.markers.length) tag true cn]) ∧
      ((capture st tag (.asyncVal v) recover x cn f).st.diag.markers =
        st.diag.markers ++
          [.startMark (tag ++ "_" ++ toString st.diag.markers.length) tag,
            .endMark (tag ++ "_" ++ toString st.diag.markers.length) tag true none]) ∧
      ((capture st tag (.syncThrow e) recover x cn f).st.diag.markers =
        st.diag.markers ++
          [.startMark (tag ++ "_" ++ toString st.diag.markers.length) tag,
            .endMark (tag ++ "_" ++ toString st.diag.markers.length) tag false cn]) ∧
      (e.isContractViolation = false →
        (capture st tag (.asyncThrow e) recover x cn f).st.diag.markers =
          st.diag.markers ++
            [.startMark (tag ++ "_" ++ toString st.diag.markers.length) tag,
              .endMark (tag ++ "_" ++ toString st.diag.markers.length) tag false none]) ∧
      (e.isContractViolation = true →
        (capture st tag (.asyncThrow e) recover x cn f).st.diag.markers =
          st.diag.markers ++
            [.startMark (tag ++ "_" ++ toString st.diag.markers.length) tag])) ∧
    (st.diag.maxMarkers = 0 →
      (capture st tag (.syncVal v) recover x cn f).st.diag.markers = st.diag.markers ∧
      (capture st tag (.asyncVal v) recover x cn f).st.diag.markers = st.diag.markers ∧
      (capture st tag (.syncThrow e) recover x cn f).st.diag.markers = st.diag.markers ∧
      (capture st tag (.asyncThrow e) recover x cn f).st.diag.markers = st.diag.markers) := by
  constructor
  · intro hlt
    have hbp := beginMarker_pos st tag hlt
    refine ⟨?_, ?_, ?_, ?_, ?_⟩
    · simp only [capture_eq_syncVal st tag v recover x cn f, hbp, endMarker_some]
      simp
    · simp only [capture_eq_asyncVal st tag v recover x cn f, hbp, endMarker_some]
      simp
    · by_cases hcv : e.isContractViolation = true
      · simp only [capture_eq_syncThrow_cv st tag e recover x cn f hcv, hbp, endMarker_some]
        simp
      · have hcv' : e.isContractViolation = false := by simpa using hcv
        simp only [capture_eq_syncThrow st tag e recover x cn f hcv', hbp, endMarker_some,
          logError_frame]
        simp
    · intro hcv
      simp only [capture_eq_asyncThrow st tag e recover x cn f hcv, hbp, logError_frame,
        endMarker_some]
      simp
    · intro hcv
      simp only [capture_eq_asyncThrow_cv st tag e recover x cn f hcv, hbp]
  · intro h0
    have hnl : ¬ st.diag.markers.length < st.diag.maxMarkers := by
      rw [h0]
      exact Nat.not_lt_zero _
    have hbn := beginMarker_neg st tag hnl
    refine ⟨?_, ?_, ?_, ?_⟩
    · simp only [capture_eq_syncVal st tag v recover x cn f, hbn, endMarker_none]
    · simp only [capture_eq_asyncVal st tag v recover x cn f, hbn, endMarker_none]
    · by_cases hcv : e.isContractViolation = true
      · simp only [capture_eq_syncThrow_cv st tag e recover x cn f hcv, hbn, endMarker_none]
      · have hcv' : e.isContractViolation = false := by simpa using hcv
        simp only [capture_eq_syncThrow st tag e recover x cn f hcv', hbn, endMarker_none,
          logError_frame]
    · by_cases hcv : e.isContractViolation = true
      · simp only [capture_eq_asyncThrow_cv st tag e recover x cn f hcv, hbn]
      · have hcv' : e.isContractViolation = false := by simpa using hcv
        simp only [capture_eq_asyncThrow st tag e recover x cn f hcv', hbn, endMarker_none,
          logError_frame]

/-- Witness for the amended C4 at a sampled and an unsampled session. -/
theorem capture_marker_bracketing_witness :
    ((mkErrorBoundary "sdk-key" 0).diag.markers.length <
      (mkErrorBoundary "sdk-key" 0).diag.maxMarkers) ∧
    (capture (mkErrorBoundary "sdk-key" 0) "t" (.syncVal (1 : Nat)) 2 none
        (some "c") none).st.diag.markers =
      [.startMark "t_0" "t", .endMark "t_0" "t" true (some "c")] ∧
    (capture (mkErrorBoundary "sdk-key" 0) "t"
        (.asyncThrow (.errObj .plain "E" "s")) (2 : Nat) none (some "c")
        none).st.diag.markers =
      [.startMark "t_0" "t", .endMark "t_0" "t" false none] ∧
    (capture (mkErrorBoundary "sdk-key" 0) "t"
        (.asyncThrow (.errObj .invalidArgument "StatsigInvalidArgumentError" "s"))
        (2 : Nat) none (some "c") none).st.diag.markers =
      [.startMark "t_0" "t"] ∧
    (capture (mkErrorBoundary "sdk-key" 1) "t" (.syncVal (1 : Nat)) 2 none
        (some "c") none).st.diag.markers = [] :=
  ⟨by decide,
    ((capture_marker_bracketing (mkErrorBoundary "sdk-key" 0) "t" (1 : Nat) 2 none
      (some "c") none (.errObj .plain "E" "s")).1 (by decide)).1,
    ((capture_marker_bracketing (mkErrorBoundary "sdk-key" 0) "t" (1 : Nat) 2 none
      (some "c") none (.errObj .plain "E" "s")).1 (by decide)).2.2.2.1 rfl,
    ((capture_marker_bracketing (mkErrorBoundary "sdk-key" 0) "t" (1 : Nat) 2 none
      (some "c") none
      (.errObj .invalidArgument "StatsigInvalidArgumentError" "s")).1
        (by decide)).2.2.2.2 rfl,
    ((capture_marker_bracketing (mkErrorBoundary "sdk-key" 1) "t" (1 : Nat) 2 none
      (some "c") none (.errObj .plain "E" "s")).2 rfl).1⟩

/-- C5: swallow is observationally equivalent to capture with a recovery
function returning undefined, except that swallow returns no value: the
state effects, transmitted reports and extractor invocation coincide, an
error that escapes the capture call synchronously is thrown out of
swallow unchanged, a rejection of the promise capture would return is
discarded by swallow and escapes only as an unhandled rejection, an
unexpected failure is converted to a no-op with nothing escaping, and
the two contract-violation error kinds still escape the boundary. -/
theorem swallow_equiv_capture_undefined {T : Type} (st : EBState) (tag : String)
    (task : Outcome T) (x : Option ExtraOutcome) (cn : Option String)
    (f : Option JSErr) (e : JSErr) :
    (swallow st tag task x cn f).st =
      (capture st tag (liftOutcome task) (none : Option T) x cn f).st ∧
    (swallow st tag task x cn f).reports =
      (capture st tag (liftOutcome task) (none : Option T) x cn f).reports ∧
    (swallow st tag task x cn f).extraInvoked =
      (capture st tag (liftOutcome task) (none : Option T) x cn f).extraInvoked ∧
    (swallow st tag task x cn f).syncThrown =
      thrownOf (capture st tag (liftOutcome task) (none : Option T) x cn f).result ∧
    (swallow st tag task x cn f).unhandledRejection =
      rejectedOf (capture st tag (liftOutcome task) (none : Option T) x cn f).result ∧
    (task = .syncThrow e → e.isContractViolation = true →
      (swallow st tag task x cn f).syncThrown = some e) ∧
    (task = .asyncThrow e → e.isContractViolation = true →
      (swallow st tag task x cn f).unhandledRejection = some e) ∧
    (e.isContractViolation = false → (task = .syncThrow e ∨ task = .asyncThrow e) →
      (swallow st tag task x cn f).syncThrown = none ∧
      (swallow st tag task x cn f).unhandledRejection = none) := by
  refine ⟨rfl, rfl, rfl, rfl, rfl, ?_, ?_, ?_⟩
  · intro ht hcv
    subst ht
    show thrownOf (capture st tag (liftOutcome (Outcome.syncThrow e))
      (none : Option T) x cn f).result = some e
    simp only [liftOutcome]
    simp only [capture_eq_syncThrow_cv st tag e (none : Option T) x cn f hcv]
    rfl
  · intro ht hcv
    subst ht
    show rejectedOf (capture st tag (liftOutcome (Outcome.asyncThrow e))
      (none : Option T) x cn f).result = some e
    simp only [liftOutcome]
    simp only [capture_eq_asyncThrow_cv st tag e (none : Option T) x cn f hcv]
    rfl
  · intro hcv hOr
    rcases hOr with ht | ht
    · subst ht
      constructor
      · show thrownOf (capture st tag (liftOutcome (Outcome.syncThrow e))
          (none : Option T) x cn f).result = none
        simp only [liftOutcome]
        simp only [capture_eq_syncThrow st tag e (none : Option T) x cn f hcv]
        rfl
      · show rejectedOf (capture st tag (liftOutcome (Outcome.syncThrow e))
          (none : Option T) x cn f).result = none
        simp only [liftOutcome]
        simp only [capture_eq_syncThrow st tag e (none : Option T) x cn f hcv]
        rfl
    · subst ht
      constructor
      · show thrownOf (capture st tag (liftOutcome (Outcome.asyncThrow e))
          (none : Option T) x cn f).result = none
        simp only [liftOutcome]
        simp only [capture_eq_asyncThrow st tag e (none : Option T) x cn f hcv]
        rfl
      · show rejectedOf (capture st tag (liftOutcome (Outcome.asyncThrow e))
          (none : Option T) x cn f).result = none
        simp only [liftOutcome]
        simp only [capture_eq_asyncThrow st tag e (none : Option T) x cn f hcv]
        rfl

/-- Witness for C5 at concrete tasks: an unexpected synchronous failure
is swallowed while a synchronous contract violation is thrown out. -/
theorem swallow_equiv_capture_undefined_witness :
    ((Outcome.syncThrow (JSErr.errObj .plain "E" "s") : Outcome Nat) =
      .syncThrow (.errObj .plain "E" "s") ∧
    (JSErr.errObj .plain "E" "s").isContractViolation = false ∧
    (swallow (mkErrorBoundary "sdk-key" 1) "logEvent"
      (.syncThrow (JSErr.errObj .plain "E" "s") : Outcome Nat) none none none).syncThrown
        = none ∧
    (swallow (mkErrorBoundary "sdk-key" 1) "logEvent"
      (.syncThrow (JSErr.errObj .plain "E" "s") : Outcome Nat) none none
        none).unhandledRejection = none) ∧
    ((JSErr.errObj .uninitialized "StatsigUninitializedError" "s").isContractViolation
      = true ∧
    (swallow (mkErrorBoundary "sdk-key" 1) "logEvent"
      (.syncThrow (JSErr.errObj .uninitialized "StatsigUninitializedError" "s") :
        Outcome Nat) none none none).syncThrown =
      some (.errObj .uninitialized "StatsigUninitializedError" "s") ∧
    (swallow (mkErrorBoundary "sdk-key" 1) "logEvent"
      (.syncThrow (JSErr.errObj .uninitialized "StatsigUninitializedError" "s") :
        Outcome Nat) none none none).st =
      (capture (mkErrorBoundary "sdk-key" 1) "logEvent"
        (liftOutcome (.syncThrow (JSErr.errObj .uninitialized "StatsigUninitializedError" "s") :
          Outcome Nat)) (none : Option Nat) none none none).st) :=
  ⟨⟨rfl, rfl,
    ((swallow_equiv_capture_undefined (mkErrorBoundary "sdk-key" 1) "logEvent"
      (.syncThrow (JSErr.errObj .plain "E" "s") : Outcome Nat) none none none
      (.errObj .plain "E" "s")).2.2.2.2.2.2.2 rfl (Or.inl rfl)).1,
    ((swallow_equiv_capture_undefined (mkErrorBoundary "sdk-key" 1) "logEvent"
      (.syncThrow (JSErr.errObj .plain "E" "s") : Outcome Nat) none none none
      (.errObj .plain "E" "s")).2.2.2.2.2.2.2 rfl (Or.inl rfl)).2⟩,
   ⟨rfl,
    (swallow_equiv_capture_undefined (mkErrorBoundary "sdk-key" 1) "logEvent"
      (.syncThrow (JSErr.errObj .uninitialized "StatsigUninitializedError" "s") :
        Outcome Nat) none none none
      (.errObj .uninitialized "StatsigUninitializedError" "s")).2.2.2.2.2.1 rfl rfl,
    (swallow_equiv_capture_undefined (mkErrorBoundary "sdk-key" 1) "logEvent"
      (.syncThrow (JSErr.errObj .uninitialized "StatsigUninitializedError" "s") :
        Outcome Nat) none none none
      (.errObj .uninitialized "StatsigUninitializedError" "s")).1⟩⟩

/-- Preservation of the marker capacity by capture. -/
theorem capture_maxMarkers {T : Type} (st : EBState) (tag : String)
    (task : Outcome T) (recover : T) (x : Option ExtraOutcome)
    (cn : Option String) (f : Option JSErr) :
    (capture st tag task recover x cn f).st.diag.maxMarkers = st.diag.maxMarkers := by
  have hb := beginMarker_fields st tag
  cases task with
  | syncVal v =>
    simp only [capture_eq_syncVal st tag v recover x cn f]
    exact (endMarker_fields (beginMarker st tag).2 tag true (beginMarker st tag).1
      cn).2.2.2.trans hb.2.2.2
  | asyncVal v =>
    simp only [capture_eq_asyncVal st tag v recover x cn f]
    exact (endMarker_fields (beginMarker st tag).2 tag true (beginMarker st tag).1
      none).2.2.2.trans hb.2.2.2
  | syncThrow e =>
    by_cases hcv : e.isContractViolation = true
    · simp only [capture_eq_syncThrow_cv st tag e recover x cn f hcv]
      exact (endMarker_fields (beginMarker st tag).2 tag false (beginMarker st tag).1
        cn).2.2.2.trans hb.2.2.2
    · have hcv' : e.isContractViolation = false := by simpa using hcv
      simp only [capture_eq_syncThrow st tag e recover x cn f hcv']
      rw [(logError_frame (endMarker (beginMarker st tag).2 tag false
        (beginMarker st tag).1 cn) tag e x f).1]
      exact (endMarker_fields (beginMarker st tag).2 tag false (beginMarker st tag).1
        cn).2.2.2.trans hb.2.2.2
  | asyncThrow e =>
    by_cases hcv : e.isContractViolation = true
    · simp only [capture_eq_asyncThrow_cv st tag e recover x cn f hcv]
      exact hb.2.2.2
    · have hcv' : e.isContractViolation = false := by simpa using hcv
      simp only [capture_eq_asyncThrow st tag e recover x cn f hcv']
      rw [(endMarker_fields (logError (beginMarker st tag).2 tag e x f).st tag false
        (beginMarker st tag).1 none).2.2.2,
        (logError_frame (beginMarker st tag).2 tag e x f).1]
      exact hb.2.2.2

/-- Preservation of the marker capacity by one session operation. -/
theorem stepOp_maxMarkers (st : EBState) (op : SessionOp) :
    (stepOp st op).1.diag.maxMarkers = st.diag.maxMarkers := by
  cases op with
  | captureOp tag task recover x cn f => exact capture_maxMarkers st tag task recover x cn f
  | swallowOp tag task x cn f => exact capture_maxMarkers st tag (liftOutcome task) none x cn f
  | logErrorOp tag e x f =>
    exact congrArg DiagState.maxMarkers (logError_frame st tag e x f).1
  | setMetadataOp m => rfl

/-- Preservation of the marker capacity by a whole session. -/
theorem runSession_maxMarkers (ops : List SessionOp) :
    ∀ st : EBState, (runSession st ops).1.diag.maxMarkers = st.diag.maxMarkers := by
  induction ops with
  | nil => intro st; rfl
  | cons op rest ih =>
    intro st
    exact (ih (stepOp st op).1).trans (stepOp_maxMarkers st op)

/-- C6: the constructor fixes the diagnostics marker capacity once,
before any operation runs: it is MAX_DIAGNOSTICS_MARKERS when the
sampling draw is zero and zero otherwise, hence always one of the two
values 30 and 0, while the marker list and the seen set start empty; no
later operation, nor any whole session of operations, changes the
capacity. -/
theorem marker_capacity_fixed_at_construction {T : Type} (key : String)
    (sampling : Nat) (st : EBState) (tag : String) (task : Outcome T)
    (recover : T) (x : Option ExtraOutcome) (cn : Option String)
    (f : Option JSErr) (e : JSErr) (m : List (String × MetaVal))
    (ops : List SessionOp) :
    ((mkErrorBoundary key sampling).diag.maxMarkers =
      if sampling = 0 then MAX_DIAGNOSTICS_MARKERS else 0) ∧
    ((mkErrorBoundary key sampling).diag.maxMarkers = 30 ∨
      (mkErrorBoundary key sampling).diag.maxMarkers = 0) ∧
    (mkErrorBoundary key sampling).diag.markers = [] ∧
    (mkErrorBoundary key sampling).seen = [] ∧
    (capture st tag task recover x cn f).st.diag.maxMarkers = st.diag.maxMarkers ∧
    (swallow st tag task x cn f).st.diag.maxMarkers = st.diag.maxMarkers ∧
    (logError st tag e x f).st.diag.maxMarkers = st.diag.maxMarkers ∧
    (setStatsigMetadata st m).diag.maxMarkers = st.diag.maxMarkers ∧
    (runSession st ops).1.diag.maxMarkers = st.diag.maxMarkers := by
  refine ⟨rfl, ?_, rfl, rfl, capture_maxMarkers st tag task recover x cn f,
    capture_maxMarkers st tag (liftOutcome task) none x cn f,
    congrArg DiagState.maxMarkers (logError_frame st tag e x f).1, rfl,
    runSession_maxMarkers ops st⟩
  by_cases hs : sampling = 0
  · left
    simp [mkErrorBoundary, hs, MAX_DIAGNOSTICS_MARKERS]
  · right
    simp [mkErrorBoundary, hs]

/-- C7: every transmitted exception report is a single POST to the fixed
endpoint whose body carries exactly the tag, the exception name of the
failure, the info text (the stack for Error values, the JSON description
otherwise), the stored statsigMetadata (an empty record when unset) and
the extra record (empty when no extractor was supplied, the extracted
record otherwise), and whose headers carry the sdk key and the sdkType
and sdkVersion entries of the stored metadata. -/
theorem exception_report_shape (st : EBState) (tag : String) (e : JSErr)
    (x : Option ExtraOutcome) (f : Option JSErr) (r : Report)
    (h : (logError st tag e x f).report = some r) :
    r.url = ExceptionEndpoint ∧
    r.tag = tag ∧
    r.exception = errorName (unwrapErr e) ∧
    r.info = errorInfo (unwrapErr e) ∧
    (∀ cls nm stk, e = .errObj cls nm stk → r.exception = nm ∧ r.info = stk) ∧
    (∀ d, e = .nonError d → r.info = getDescription d) ∧
    r.statsigMetadata = st.statsigMetadata.getD [] ∧
    (x = none → r.extra = []) ∧
    (∀ en, x = some (.ok en true) → r.extra = en) ∧
    r.headers.apiKey = st.sdkKey ∧
    r.headers.sdkType = metaToString (recLookup (st.statsigMetadata.getD []) "sdkType") ∧
    r.headers.sdkVersion = metaToString (recLookup (st.statsigMetadata.getD []) "sdkVersion") ∧
    r.headers.contentType = "application/json; charset=UTF-8" := by
  have hshape : ∃ en, r = mkReport st tag (errorName (unwrapErr e))
      (errorInfo (unwrapErr e)) en ∧ ((x = none → en = []) ∧
      (∀ en2, x = some (.ok en2 true) → en = en2)) := by
    unfold logError logErrorAux logErrorCore at h
    rcases x with _ | (e' | ⟨en, ser⟩)
    · by_cases hm : errorName (unwrapErr e) ∈ st.seen
      · simp [hm] at h
      · simp [hm] at h
        exact ⟨[], h.symm, fun _ => rfl, fun en2 hx => by cases hx⟩
    · simp at h
    · cases ser with
      | false =>
        by_cases hm : errorName (unwrapErr e) ∈ st.seen <;> simp [hm] at h
      | true =>
        by_cases hm : errorName (unwrapErr e) ∈ st.seen
        · simp [hm] at h
        · simp [hm] at h
          refine ⟨en, h.symm, ?_, ?_⟩
          · intro hx
            cases hx
          · intro en2 hx
            injection hx with hx1
            injection hx1 with h1 h2
  obtain ⟨en, hr, hen⟩ := hshape
  subst hr
  refine ⟨rfl, rfl, rfl, rfl, ?_, ?_, rfl, ?_, ?_, rfl, rfl, rfl, rfl⟩
  · intro cls nm stk he
    subst he
    exact ⟨rfl, rfl⟩
  · intro d he
    subst he
    exact rfl
  · intro hx
    simp [mkReport, hen.1 hx]
  · intro en2 hx
    simp [mkReport, hen.2 en2 hx]

/-- Witness for C7 at a concrete error and metadata. -/
theorem exception_report_shape_witness :
    (logError (setStatsigMetadata (mkErrorBoundary "sdk-key" 1)
        [("sdkType", .str "js-client"), ("sdkVersion", .str "4.9.0")])
        "checkGate" (.errObj .plain "SyntaxError" "trace") none none).report =
      some (mkReport (setStatsigMetadata (mkErrorBoundary "sdk-key" 1)
        [("sdkType", .str "js-client"), ("sdkVersion", .str "4.9.0")])
        "checkGate" "SyntaxError" "trace" []) ∧
    ((mkReport (setStatsigMetadata (mkErrorBoundary "sdk-key" 1)
        [("sdkType", .str "js-client"), ("sdkVersion", .str "4.9.0")])
        "checkGate" "SyntaxError" "trace" []).url = ExceptionEndpoint ∧
    (mkReport (setStatsigMetadata (mkErrorBoundary "sdk-key" 1)
        [("sdkType", .str "js-client"), ("sdkVersion", .str "4.9.0")])
        "checkGate" "SyntaxError" "trace" []).exception =
      errorName (unwrapErr (.errObj .plain "SyntaxError" "trace")) ∧
    (mkReport (setStatsigMetadata (mkErrorBoundary "sdk-key" 1)
        [("sdkType", .str "js-client"), ("sdkVersion", .str "4.9.0")])
        "checkGate" "SyntaxError" "trace" []).headers.apiKey = "sdk-key" ∧
    (mkReport (setStatsigMetadata (mkErrorBoundary "sdk-key" 1)
        [("sdkType", .str "js-client"), ("sdkVersion", .str "4.9.0")])
        "checkGate" "SyntaxError" "trace" []).headers.sdkType =
      metaToString (recLookup ((setStatsigMetadata (mkErrorBoundary "sdk-key" 1)
        [("sdkType", .str "js-client"), ("sdkVersion", .str "4.9.0")]).statsigMetadata.getD [])
        "sdkType")) := by
  have h := exception_report_shape (setStatsigMetadata (mkErrorBoundary "sdk-key" 1)
    [("sdkType", .str "js-client"), ("sdkVersion", .str "4.9.0")])
    "checkGate" (.errObj .plain "SyntaxError" "trace") none none
    (mkReport (setStatsigMetadata (mkErrorBoundary "sdk-key" 1)
      [("sdkType", .str "js-client"), ("sdkVersion", .str "4.9.0")])
      "checkGate" "SyntaxError" "trace" []) rfl
  exact ⟨rfl, h.1,
    h.2.2.1,
    h.2.2.2.2.2.2.2.2.2.1,
    h.2.2.2.2.2.2.2.2.2.2.1⟩

/-- Counterexample to C8 as stated: at a state whose seen set already
contains the failure name, an unexpected failure still invokes the
supplied extractor even though the report is then deduplicated away and
nothing is transmitted; the source awaits getExtraData before it
consults the seen set. -/
theorem extractor_invoked_despite_dedup :
    "Boom" ∈ ({ mkErrorBoundary "sdk-key" 1 with seen := ["Boom"] } : EBState).seen ∧
    (capture { mkErrorBoundary "sdk-key" 1 with seen := ["Boom"] } "checkGate"
        (.syncThrow (.errObj .plain "Boom" "trace")) (0 : Nat)
        (some (.ok [("context", "value")] true)) none none).extraInvoked = true ∧
    (capture { mkErrorBoundary "sdk-key" 1 with seen := ["Boom"] } "checkGate"
        (.syncThrow (.errObj .plain "Boom" "trace")) (0 : Nat)
        (some (.ok [("context", "value")] true)) none none).reports = [] := by
  refine ⟨by decide, ?_, ?_⟩ <;> decide

/-- C8 as amended: the extractor is never invoked when the task
completes without failure, nor when the failure is one of the two
contract-violation kinds; it is invoked exactly once whenever an
unexpected failure is caught and an extractor was supplied in the
options, regardless of whether the report is afterwards deduplicated
away by the seen set. -/
theorem extractor_invoked_only_on_error_path {T : Type} (st : EBState)
    (tag : String) (v : T) (recover : T) (x : Option ExtraOutcome)
    (cn : Option String) (f : Option JSErr) (e : JSErr) :
    (capture st tag (.syncVal v) recover x cn f).extraInvoked = false ∧
    (capture st tag (.asyncVal v) recover x cn f).extraInvoked = false ∧
    (e.isContractViolation = true →
      (capture st tag (.syncThrow e) recover x cn f).extraInvoked = false ∧
      (capture st tag (.asyncThrow e) recover x cn f).extraInvoked = false) ∧
    (e.isContractViolation = false →
      (capture st tag (.syncThrow e) recover x cn f).extraInvoked = x.isSome ∧
      (capture st tag (.asyncThrow e) recover x cn f).extraInvoked = x.isSome) := by
  refine ⟨rfl, rfl, ?_, ?_⟩
  · intro hcv
    constructor
    · simp only [capture_eq_syncThrow_cv st tag e recover x cn f hcv]
    · simp only [capture_eq_asyncThrow_cv st tag e recover x cn f hcv]
  · intro hcv
    constructor
    · simp only [capture_eq_syncThrow st tag e recover x cn f hcv]
      exact logError_invoked _ tag e x f
    · simp only [capture_eq_asyncThrow st tag e recover x cn f hcv]
      exact logError_invoked _ tag e x f

/-- Witness for the amended C8 at concrete tasks and extractors. -/
theorem extractor_invoked_only_on_error_path_witness :
    ((JSErr.errObj .plain "Boom" "trace").isContractViolation = false ∧
    (capture (mkErrorBoundary "sdk-key" 1) "checkGate" (.syncVal (1 : Nat)) 0
      (some (.ok [("context", "value")] true)) none none).extraInvoked = false ∧
    (capture (mkErrorBoundary "sdk-key" 1) "checkGate"
      (.syncThrow (.errObj .plain "Boom" "trace")) (0 : Nat)
      (some (.ok [("context", "value")] true)) none none).extraInvoked =
        (some (ExtraOutcome.ok [("context", "value")] true)).isSome) ∧
    ((JSErr.errObj .uninitialized "StatsigUninitializedError" "trace").isContractViolation
        = true ∧
    (capture (mkErrorBoundary "sdk-key" 1) "checkGate"
      (.syncThrow (.errObj .uninitialized "StatsigUninitializedError" "trace")) (0 : Nat)
      (some (.ok [("context", "value")] true)) none none).extraInvoked = false) :=
  ⟨⟨rfl,
    (extractor_invoked_only_on_error_path (mkErrorBoundary "sdk-key" 1) "checkGate"
      (1 : Nat) 0 (some (.ok [("context", "value")] true)) none none
      (.errObj .plain "Boom" "trace")).1,
    ((extractor_invoked_only_on_error_path (mkErrorBoundary "sdk-key" 1) "checkGate"
      (1 : Nat) 0 (some (.ok [("context", "value")] true)) none none
      (.errObj .plain "Boom" "trace")).2.2.2 rfl).1⟩,
   ⟨rfl,
    ((extractor_invoked_only_on_error_path (mkErrorBoundary "sdk-key" 1) "checkGate"
      (1 : Nat) 0 (some (.ok [("context", "value")] true)) none none
      (.errObj .uninitialized "StatsigUninitializedError" "trace")).2.2.1 rfl).1⟩⟩

/-- Invisibility of the fetch outcome: the observable outcome of
logError does not depend on whether the fetch promise resolves or
rejects, since the final catch of the source discards the rejection. -/
theorem logError_fetch_invisible (st : EBState) (tag : String) (e : JSErr)
    (x : Option ExtraOutcome) (f1 f2 : Option JSErr) :
    logError st tag e x f1 = logError st tag e x f2 := by
  unfold logError logErrorAux logErrorCore
  rcases x with _ | (e' | ⟨en, ser⟩)
  · by_cases h : errorName (unwrapErr e) ∈ st.seen <;> simp [h]
  · simp
  · by_cases h : errorName (unwrapErr e) ∈ st.seen <;> cases ser <;> simp [h]

/-- Independence of the caller-visible completion of capture from the
extractor behaviour and the fetch outcome of the reporting path. -/
theorem capture_result_ext {T : Type} (st : EBState) (tag : String)
    (task : Outcome T) (recover : T) (cn : Option String)
    (x1 x2 : Option ExtraOutcome) (f1 f2 : Option JSErr) :
    (capture st tag task recover x1 cn f1).result =
      (capture st tag task recover x2 cn f2).result := by
  cases task with
  | syncVal v => rfl
  | asyncVal v => rfl
  | syncThrow e =>
    by_cases hcv : e.isContractViolation = true
    · simp only [capture_eq_syncThrow_cv st tag e recover x1 cn f1 hcv,
        capture_eq_syncThrow_cv st tag e recover x2 cn f2 hcv]
    · have hcv' : e.isContractViolation = false := by simpa using hcv
      simp only [capture_eq_syncThrow st tag e recover x1 cn f1 hcv',
        capture_eq_syncThrow st tag e recover x2 cn f2 hcv']
  | asyncThrow e =>
    by_cases hcv : e.isContractViolation = true
    · simp only [capture_eq_asyncThrow_cv st tag e recover x1 cn f1 hcv,
        capture_eq_asyncThrow_cv st tag e recover x2 cn f2 hcv]
    · have hcv' : e.isContractViolation = false := by simpa using hcv
      simp only [capture_eq_asyncThrow st tag e recover x1 cn f1 hcv',
        capture_eq_asyncThrow st tag e recover x2 cn f2 hcv']

/-- C9: logError never throws to its caller and never leaks an
unhandled rejection: it is exactly the fault-discarding truncation of
its own async body, so every fault of the extractor, the serialization
or the fetch is swallowed; its observable outcome does not depend on
the fetch outcome; it touches nothing of the state except possibly
prepending one name to the seen set; and the caller-visible completion
of a wrapped operation is independent of the extractor behaviour and
the fetch outcome of the reporting path. -/
theorem logError_never_disrupts_caller {T : Type} (st : EBState) (tag : String)
    (e : JSErr) (x x1 x2 : Option ExtraOutcome) (f f1 f2 : Option JSErr)
    (task : Outcome T) (recover : T) (cn : Option String) :
    logError st tag e x f = (logErrorAux st tag e x f).1 ∧
    logError st tag e x f1 = logError st tag e x f2 ∧
    (logError st tag e x f).st.diag = st.diag ∧
    (logError st tag e x f).st.sdkKey = st.sdkKey ∧
    (logError st tag e x f).st.statsigMetadata = st.statsigMetadata ∧
    ((logError st tag e x f).st.seen = st.seen ∨
      (logError st tag e x f).st.seen = errorName (unwrapErr e) :: st.seen) ∧
    (capture st tag task recover x1 cn f1).result =
      (capture st tag task recover x2 cn f2).result :=
  ⟨rfl, logError_fetch_invisible st tag e x f1 f2,
    (logError_frame st tag e x f).1, (logError_frame st tag e x f).2.1,
    (logError_frame st tag e x f).2.2,
    logError_seen st tag e x f,
    capture_result_ext st tag task recover cn x1 x2 f1 f2⟩

/-- C10: every unexpected failure whose value is not an Error instance
is assigned the single deduplication identity No Name, while a null or
undefined failure is first replaced by a placeholder Error named Error;
consequently, once No Name is in the seen set, every non-Error failure
from any tag produces no report, a report produced by a non-Error
failure is named No Name and leaves No Name in the seen set, and a
whole session transmits at most one report named No Name. -/
theorem non_error_failures_share_one_identity (st : EBState) (tag : String)
    (d : Option String) (x : Option ExtraOutcome) (f : Option JSErr)
    (r : Report) (ops : List SessionOp) :
    errorName (unwrapErr (.nonError d)) = "No Name" ∧
    errorName (unwrapErr .nullish) = "Error" ∧
    ("No Name" ∈ st.seen → (logError st tag (.nonError d) x f).report = none) ∧
    ((logError st tag (.nonError d) x f).report = some r →
      r.exception = "No Name" ∧
      "No Name" ∈ (logError st tag (.nonError d) x f).st.seen) ∧
    countReportsNamed "No Name" (runSession st ops).2 ≤
      (if "No Name" ∈ st.seen then 0 else 1) := by
  refine ⟨rfl, rfl, ?_, ?_, runSession_count_le ops st "No Name"⟩
  · intro h
    exact (logError_dedup st tag (.nonError d) x f h).1
  · intro hr
    have hname : r.exception = "No Name" :=
      logError_report_name st tag (.nonError d) x f r hr
    have hfresh := logError_report_fresh st tag (.nonError d) x f r hr
    exact ⟨hname, hname ▸ hfresh.2⟩

/-- Witness for C10: a first non-Error failure is reported under the
name No Name, and a second non-Error failure of a different value at
the updated state produces no report. -/
theorem non_error_failures_share_one_identity_witness :
    ((logError (mkErrorBoundary "sdk-key" 1) "logEvent" (.nonError (some "42"))
        none none).report =
      some (mkReport (mkErrorBoundary "sdk-key" 1) "logEvent" "No Name" "42" []) ∧
    ((mkReport (mkErrorBoundary "sdk-key" 1) "logEvent" "No Name" "42" []).exception =
      "No Name" ∧
    "No Name" ∈ (logError (mkErrorBoundary "sdk-key" 1) "logEvent"
        (.nonError (some "42")) none none).st.seen)) ∧
    ("No Name" ∈ ({ mkErrorBoundary "sdk-key" 1 with seen := ["No Name"] } : EBState).seen ∧
    (logError { mkErrorBoundary "sdk-key" 1 with seen := ["No Name"] } "checkGate"
        (.nonError (some "false")) none none).report = none) :=
  ⟨⟨rfl,
    (non_error_failures_share_one_identity (mkErrorBoundary "sdk-key" 1) "logEvent"
      (some "42") none none
      (mkReport (mkErrorBoundary "sdk-key" 1) "logEvent" "No Name" "42" []) []).2.2.2.1
      rfl⟩,
   ⟨by decide,
    (non_error_failures_share_one_identity
      { mkErrorBoundary "sdk-key" 1 with seen := ["No Name"] } "checkGate"
      (some "false") none none
      (mkReport (mkErrorBoundary "sdk-key" 1) "logEvent" "No Name" "42" []) []).2.2.1
      (by decide)⟩⟩
